import Mathlib

/-!
Verification of the retrieval / context-assembly pipeline of the KB real-estate
report Q&A repository (cntchatbot_pjt1).

The embedding follows the Python source:
- `src/s7_qa_system_light.py` — `QASystem` (`rewrite_query`, `build_context`,
  `generate_answer`, `answer_question`);
- `src/s4_chunking_strategy.py` — the chunking driver `chunk_single_institution`;
- `tmp.py` — the interactive shell (session message list, `generate_response`).

Python strings are embedded as Lean `String`; the few Python string operations
used by the source (`split`, `strip`, slicing, `in`) are embedded as executable
functions over `String.data`, matching Python's per-character semantics. LLM and
vector-index calls are external collaborators and enter as oracle parameters
(`Option String` results; `none` models a raised exception / `None` return).
The missing source file `s6_search_engine.py` (hybrid search / reciprocal rank
fusion) is modelled from the spec, as marked on each of its definitions.
-/

namespace KBQA

/-- Python str truthiness of an optional metadata field: `metadata.get(key)` is
truthy iff the key is present with a non-empty string value. -/
def truthy : Option String → Bool
  | some s => s != ""
  | none => false

/-- Python `s.split(sep)` for a one-character separator, over code points. -/
def pySplit (sep : Char) (s : String) : List String :=
  (s.data.splitOn sep).map String.mk

/-- Python `s.strip()`: whitespace removed from both ends. -/
def pyStrip (s : String) : String :=
  String.mk (((s.data.dropWhile Char.isWhitespace).reverse.dropWhile
    Char.isWhitespace).reverse)

/-- Python `s[:n]` over code points. -/
def pyTake (n : Nat) (s : String) : String := String.mk (s.data.take n)

/-- Python `"sep".join(parts)`. -/
def joinWith (sep : String) : List String → String
  | [] => ""
  | [x] => x
  | x :: y :: ys => x ++ sep ++ joinWith sep (y :: ys)

/-- Metadata dictionary of one search result, as read by
`QASystem.build_context` (s7_qa_system_light.py lines 121-149): each field is
optional because the source reads it with `metadata.get`. -/
structure Metadata where
  institution : Option String
  doc_type : Option String
  page : Option Nat
  table_id : Option String
  image_path : Option String
deriving DecidableEq

/-- One search result consumed by `build_context`: `result.get("metadata", {})`
and `result.get("content", "")`. -/
structure SearchResult where
  metadata : Metadata
  content : String
deriving DecidableEq

/-- Embeds `institution_map.get(institution, f"{institution} 리포트")`
(s7_qa_system_light.py lines 126-131). -/
def institution_name (inst : String) : String :=
  if inst = "hd" then "HD 현대 리포트"
  else if inst = "kb" then "KB 부동산 리포트"
  else if inst = "khi" then "KHI 주택금융 리포트"
  else inst ++ " 리포트"

/-- Embeds `doc_type_map.get(metadata.get("doc_type"), "본문")`
(s7_qa_system_light.py lines 134-139). -/
def doc_type_name : Option String → String
  | some "text" => "본문"
  | some "table" => "표"
  | some "image" => "그래프/이미지"
  | _ => "본문"

/-- Embeds `metadata.get("page", "unknown")` rendered into the block. -/
def page_str : Option Nat → String
  | some n => toString n
  | none => "unknown"

/-- Embeds the filename extraction for the image line
(s7_qa_system_light.py lines 147-148). -/
def image_filename (p : String) : String :=
  if '\\' ∈ p.data then (pySplit '\\' p).getLastD p
  else (pySplit '/' p).getLastD p

/-- Embeds the extra-information line of one block
(s7_qa_system_light.py lines 142-149): the table-id line when `table_id` is
truthy, else the image line when `image_path` is truthy, else empty. -/
def extra_info (m : Metadata) : String :=
  if truthy m.table_id then "\n표 ID: " ++ m.table_id.getD ""
  else if truthy m.image_path then "\n이미지: " ++ image_filename (m.image_path.getD "")
  else ""

/-- Source label of one result (s7_qa_system_light.py lines 125-131). -/
def source_name (r : SearchResult) : String :=
  institution_name (r.metadata.institution.getD "unknown")

/-- Document-type label of one result (s7_qa_system_light.py line 139). -/
def doc_type_str (r : SearchResult) : String := doc_type_name r.metadata.doc_type

/-- Page label of one result (s7_qa_system_light.py line 140). -/
def page_of (r : SearchResult) : String := page_str r.metadata.page

/-- Text of the block before the raw content (s7_qa_system_light.py
lines 151-156). -/
def block_pre (i : Nat) (r : SearchResult) : String :=
  "[컨텍스트 " ++ toString i ++ "]\n출처 기관: " ++ source_name r ++ "\n타입: " ++
    doc_type_str r ++ "\n페이지: " ++ page_of r ++ "페이지" ++ extra_info r.metadata ++
    "\n\n내용:\n"

/-- Text of the block after the raw content (s7_qa_system_light.py
lines 158-160). -/
def block_post (i : Nat) (r : SearchResult) : String :=
  "\n\n출처: [" ++ toString i ++ "] " ++ source_name r ++ " " ++ doc_type_str r ++
    " (" ++ page_of r ++ "페이지)\n"

/-- The formatted block of one result (the f-string at s7_qa_system_light.py
lines 151-160): block text before the content, the raw content, block text
after the content. -/
def format_block (i : Nat) (r : SearchResult) : String :=
  block_pre i r ++ r.content ++ block_post i r

/-- The separator appended after each block (`"─" * 80 + "\n"`, line 162). -/
def separator_line : String := String.mk (List.replicate 80 '─') ++ "\n"

/-- The header the parts list starts from (s7_qa_system_light.py line 118). -/
def context_header : String := "다음은 2024 KB 부동산 리포트에서 검색된 관련 정보입니다:\n"

/-- The enumeration `enumerate(top_results, 1)` of `build_context`
(s7_qa_system_light.py lines 116, 120): the first `max_chunks` results, each
paired with its 1-based citation index. -/
def context_blocks (rs : List SearchResult) (max_chunks : Nat) :
    List (Nat × SearchResult) :=
  (rs.take max_chunks).enum.map (fun p => (p.1 + 1, p.2))

/-- The `context_parts` list of `build_context` (lines 118-162): the header,
then per enumerated result its formatted block followed by a separator line. -/
def context_parts (rs : List SearchResult) (max_chunks : Nat) : List String :=
  context_header :: ((context_blocks rs max_chunks).map
    (fun b => [format_block b.1 b.2, separator_line])).flatten

/-- The sentinel returned on an empty result list (s7_qa_system_light.py
line 114). -/
def no_info_sentinel : String := "관련 정보를 찾을 수 없습니다."

/-- Embeds `QASystem.build_context` (s7_qa_system_light.py lines 102-172):
the sentinel on an empty result list, otherwise `"\n".join(context_parts)`. -/
def build_context (rs : List SearchResult) (max_chunks : Nat) : String :=
  if rs.isEmpty then no_info_sentinel
  else joinWith "\n" (context_parts rs max_chunks)

/-- Role of one conversation turn in the interactive shell (tmp.py). -/
inductive Role where
  | user
  | assistant
deriving DecidableEq

/-- One reference row built by `generate_response` (tmp.py lines 337-364). -/
structure Reference where
  page : Option Nat
  text : String
  source : String
  institution : String
deriving DecidableEq

/-- One entry of `st.session_state.messages` (tmp.py lines 423-426, 436-440):
user turns carry no references. -/
structure Turn where
  role : Role
  content : String
  references : List Reference
deriving DecidableEq

/-- The failure sentinel of `answer_question` / `generate_response`
(s7_qa_system_light.py line 251, tmp.py line 334). -/
def failure_sentinel : String := "답변 생성에 실패했습니다."

/-- Embeds `institution_map.get(institution, institution)` of
`generate_response` (tmp.py lines 343-349). -/
def tmp_institution_name (inst : String) : String :=
  if inst = "hd" then "HD 현대"
  else if inst = "kb" then "KB금융"
  else if inst = "khi" then "KHI 주택금융"
  else inst

/-- Embeds `doc_type_map.get(metadata.get("doc_type"), "본문")` of
`generate_response` (tmp.py lines 352-357). -/
def tmp_doc_type_name : Option String → String
  | some "text" => "본문"
  | some "table" => "표"
  | some "image" => "그래프"
  | _ => "본문"

/-- Embeds the reference row built per result (tmp.py lines 338-364). -/
def make_reference (r : SearchResult) : Reference :=
  { page := r.metadata.page
    text := pyTake 300 r.content
    source := tmp_institution_name (r.metadata.institution.getD "unknown") ++ " - " ++
      tmp_doc_type_name r.metadata.doc_type
    institution := tmp_institution_name (r.metadata.institution.getD "unknown") }

/-- Embeds tmp.py `generate_response` (lines 315-366) on the path where the QA
system and the search engine are initialized: `answer` is the result of the
`generate_answer` call (`none` models a `None` return); `if not answer` also
treats the empty string as failure and returns the failure sentinel with an
empty reference list. -/
def generate_response (answer : Option String) (search_results : List SearchResult)
    (top_k : Nat) : String × List Reference :=
  match answer with
  | none => (failure_sentinel, [])
  | some a =>
    if a = "" then (failure_sentinel, [])
    else (a, (search_results.take top_k).map make_reference)

/-- Embeds `st.session_state.messages.append(...)` (tmp.py lines 423, 436). -/
def append_turn (messages : List Turn) (t : Turn) : List Turn := messages ++ [t]

/-- Embeds the user-input handling block of tmp.py (lines 418-442): the user
turn is appended, `generate_response` runs, and its response is appended as an
assistant turn carrying the references. -/
def handle_user_input (messages : List Turn) (user_input : String)
    (answer : Option String) (search_results : List SearchResult) (top_k : Nat) :
    List Turn :=
  let ms := append_turn messages ⟨Role.user, user_input, []⟩
  let br := generate_response answer search_results top_k
  append_turn ms ⟨Role.assistant, br.1, br.2⟩

/-- Embeds the reset button (tmp.py line 242): `st.session_state.messages = []`. -/
def clear_messages : List Turn := []

/-- Embeds `QASystem.rewrite_query` (s7_qa_system_light.py lines 57-100): the
LLM call enters as its result (`none` models a raised exception). On success
the returned content is stripped; on an exception the original query is
returned unchanged. -/
def rewrite_query (llm_result : Option String) (query : String) : String :=
  match llm_result with
  | some content => pyStrip content
  | none => query

/-- Embeds `QASystem.answer_question` (s7_qa_system_light.py lines 223-260),
the two LLM calls supplied as oracles: `rewrite_llm` is the rewrite call's
result and `gen` maps (query, context) to the `generate_answer` result
(`none` models a `None` return after an exception). `build_context` is called
with its default `max_chunks = 5`; `if not answer` returns the failure
sentinel. -/
def answer_question (gen : String → String → Option String)
    (rewrite_llm : Option String) (rewrite : Bool) (query : String)
    (search_results : List SearchResult) : String :=
  let q := if rewrite then rewrite_query rewrite_llm query else query
  let context := build_context search_results 5
  match gen q context with
  | none => failure_sentinel
  | some a => if a = "" then failure_sentinel else a

/-- One table record of `processed.json` consumed by the chunking driver
(s4_chunking_strategy.py lines 62-63, 85-87). -/
structure TableData where
  table_id : Option String
  page : Option Nat
  rendered_text : String
deriving DecidableEq

/-- One image record of `processed.json` (s4_chunking_strategy.py
lines 66-67, 93-95). -/
structure ImageData where
  image_path : Option String
  page : Option Nat
  description : String
deriving DecidableEq

/-- A chunk as produced by the chunking pipeline (spec §3). -/
structure Chunk where
  doc_type : String
  content : String
  table_id : Option String
  image_path : Option String
  page : Option Nat
deriving DecidableEq

/-- Modelled from the spec: `ChunkingStrategy.make_table_to_chunk` is not
under src (only its caller `chunk_single_institution` in
s4_chunking_strategy.py is). Per spec §4.1, each table becomes exactly one
chunk regardless of size, its rendered text passed through unchanged. -/
def make_table_to_chunk (t : TableData) : Chunk :=
  { doc_type := "table", content := t.rendered_text, table_id := t.table_id,
    image_path := none, page := t.page }

/-- Modelled from the spec: `ChunkingStrategy.make_image_to_chunk` is not
under src. Per spec §4.1, each image becomes exactly one chunk containing its
descriptive text, never split. -/
def make_image_to_chunk (im : ImageData) : Chunk :=
  { doc_type := "image", content := im.description, table_id := none,
    image_path := im.image_path, page := im.page }

/-- Embeds the table loop of `chunk_single_institution`
(s4_chunking_strategy.py lines 84-88): per table record, exactly one
`make_table_to_chunk` result is appended. -/
def table_chunks (tables : List TableData) : List Chunk :=
  tables.map make_table_to_chunk

/-- Embeds the image loop of `chunk_single_institution`
(s4_chunking_strategy.py lines 92-96): per image record, exactly one
`make_image_to_chunk` result is appended. -/
def image_chunks (images : List ImageData) : List Chunk :=
  images.map make_image_to_chunk

abbrev ChunkId := Nat

/-- Modelled from the spec: the rank fuser lives in `s6_search_engine.py`,
which is not under src (only its callers are); spec §4.5 defines it. The
1-based rank of a chunk id in one ranked-hit list, `none` when absent. -/
def rank_in_list : List ChunkId → ChunkId → Option Nat
  | [], _ => none
  | x :: xs, c => if x = c then some 1 else (rank_in_list xs c).map (· + 1)

/-- Modelled from the spec (§4.5): the contribution of one ranked list to a
chunk's fused score — `1 / (k + rank)`, and 0 when the chunk is absent from
the list. Scores are exact rationals. -/
def rrf_contrib (k : ℚ) (l : List ChunkId) (c : ChunkId) : ℚ :=
  match rank_in_list l c with
  | some r => 1 / (k + r)
  | none => 0

/-- Modelled from the spec (§4.5):
`rrf_score(chunk) = Σ_over_lists 1 / (k + rank_in_list(chunk))`. -/
def rrf_score (k : ℚ) (lists : List (List ChunkId)) (c : ChunkId) : ℚ :=
  (lists.map (fun l => rrf_contrib k l c)).sum

/-- Modelled from the spec (§4.5): the ordering of fused results —
`rrf_score` descending, ties broken by ascending chunk id. -/
def fused_before (a b : ChunkId × ℚ) : Prop :=
  b.2 < a.2 ∨ (a.2 = b.2 ∧ a.1 ≤ b.1)

instance : DecidableRel fused_before := fun a b =>
  inferInstanceAs (Decidable (b.2 < a.2 ∨ (a.2 = b.2 ∧ a.1 ≤ b.1)))

instance : IsTrans (ChunkId × ℚ) fused_before where
  trans a b c hab hbc := by
    rcases hab with hab | ⟨hab, hab'⟩ <;> rcases hbc with hbc | ⟨hbc, hbc'⟩
    · exact Or.inl (lt_trans hbc hab)
    · exact Or.inl (by rw [← hbc]; exact hab)
    · exact Or.inl (by rw [hab]; exact hbc)
    · exact Or.inr ⟨hab.trans hbc, le_trans hab' hbc'⟩

instance : IsTotal (ChunkId × ℚ) fused_before where
  total a b := by
    rcases lt_trichotomy a.2 b.2 with h | h | h
    · exact Or.inr (Or.inl h)
    · rcases Nat.le_total a.1 b.1 with h' | h'
      · exact Or.inl (Or.inr ⟨h, h'⟩)
      · exact Or.inr (Or.inr ⟨h.symm, h'⟩)
    · exact Or.inl (Or.inl h)

instance : IsAntisymm (ChunkId × ℚ) fused_before where
  antisymm a b hab hba := by
    rcases hab with hab | ⟨hab, hab'⟩ <;> rcases hba with hba | ⟨hba, hba'⟩
    · exact absurd hab (lt_asymm hba)
    · exact absurd hab (by rw [hba]; exact lt_irrefl _)
    · exact absurd hba (by rw [hab]; exact lt_irrefl _)
    · exact Prod.ext (Nat.le_antisymm hab' hba') hab

/-- Modelled from the spec (§4.5): the deduplicated set of chunk ids
appearing in at least one input list. -/
def fused_candidates (lists : List (List ChunkId)) : List ChunkId :=
  lists.flatten.dedup

/-- Modelled from the spec (§4.5): the full fused output — every candidate
paired with its `rrf_score`, sorted by score descending with ties broken by
ascending chunk id. -/
def rrf_fuse (k : ℚ) (lists : List (List ChunkId)) : List (ChunkId × ℚ) :=
  List.insertionSort fused_before
    ((fused_candidates lists).map (fun c => (c, rrf_score k lists c)))

/-- Modelled from the spec (§4.5): `hybrid_search` returns the first `top_k`
elements of the fused, sorted output. -/
def hybrid_search (k : ℚ) (lists : List (List ChunkId)) (top_k : Nat) :
    List (ChunkId × ℚ) :=
  (rrf_fuse k lists).take top_k

/-- Concrete metadata used to instantiate theorems about `build_context`. -/
def meta₀ : Metadata :=
  { institution := some "kb", doc_type := some "text", page := some 12,
    table_id := none, image_path := none }

/-- Concrete search result used to instantiate theorems about `build_context`. -/
def res₀ : SearchResult := { metadata := meta₀, content := "CONTENT" }

/-- Concrete metadata carrying both a table id and an image path. -/
def meta₁ : Metadata :=
  { institution := some "kb", doc_type := some "table", page := some 12,
    table_id := some "T1", image_path := some "img/a.png" }

/-- Concrete conversation turn. -/
def turn_a : Turn := ⟨Role.user, "a", []⟩

/-- Concrete conversation turn. -/
def turn_b : Turn := ⟨Role.user, "b", []⟩

/-- Concrete conversation turn. -/
def turn_c : Turn := ⟨Role.user, "c", []⟩

theorem enum_index_range {α : Type} (l : List α) :
    l.enum.map (fun p => p.1 + 1) = List.range' 1 l.length := by
  calc l.enum.map (fun p => p.1 + 1)
      = (l.enum.map Prod.fst).map (· + 1) := by rw [List.map_map]; rfl
    _ = (List.range l.length).map (· + 1) := by rw [List.enum_map_fst]
    _ = List.range' 1 l.length := by
        rw [List.range'_eq_map_range]
        exact List.map_congr_left fun a _ => Nat.add_comm a 1

theorem context_blocks_length (rs : List SearchResult) (m : Nat) :
    (context_blocks rs m).length = min rs.length m := by
  unfold context_blocks
  rw [List.length_map, List.enum_length, List.length_take, Nat.min_comm]

theorem context_blocks_map_fst (rs : List SearchResult) (m : Nat) :
    (context_blocks rs m).map Prod.fst = List.range' 1 (min rs.length m) := by
  unfold context_blocks
  rw [List.map_map]
  have h : (Prod.fst ∘ fun p : Nat × SearchResult => (p.1 + 1, p.2)) =
      fun p : Nat × SearchResult => p.1 + 1 := rfl
  rw [h, enum_index_range, List.length_take, Nat.min_comm]

theorem context_blocks_map_snd (rs : List SearchResult) (m : Nat) :
    (context_blocks rs m).map Prod.snd = rs.take m := by
  unfold context_blocks
  rw [List.map_map]
  have h : (Prod.snd ∘ fun p : Nat × SearchResult => (p.1 + 1, p.2)) =
      (Prod.snd : Nat × SearchResult → SearchResult) := rfl
  rw [h, List.enum_map_snd]

/-- C3: `build_context` renders exactly the first `N = min(L, max_chunks)`
results in their supplied order, each assigned a 1-based citation index equal
to its position: the index sequence is exactly `1..N`, with no gaps and no
duplicates (rendering is a pure function, so re-rendering the same list yields
the same indices). -/
theorem C3_citation_indices (rs : List SearchResult) (max_chunks : Nat) :
    (context_blocks rs max_chunks).length = min rs.length max_chunks ∧
    (context_blocks rs max_chunks).map Prod.fst =
      List.range' 1 (min rs.length max_chunks) ∧
    (context_blocks rs max_chunks).map Prod.snd = rs.take max_chunks ∧
    ((context_blocks rs max_chunks).map Prod.fst).Nodup := by
  refine ⟨context_blocks_length rs max_chunks, context_blocks_map_fst rs max_chunks,
    context_blocks_map_snd rs max_chunks, ?_⟩
  rw [context_blocks_map_fst]
  exact List.nodup_range' _ _

/-- C4: on the empty result list, `build_context` returns the fixed non-empty
"no relevant information found" sentinel rather than the empty string (and,
being a total function, never fails). -/
theorem C4_empty_sentinel (max_chunks : Nat) :
    build_context [] max_chunks = no_info_sentinel ∧ no_info_sentinel ≠ "" := by
  exact ⟨rfl, by decide⟩

theorem joinWith_infix (sep x : String) :
    ∀ parts : List String, x ∈ parts → ∃ a c, joinWith sep parts = a ++ x ++ c
  | [], h => absurd h (List.not_mem_nil x)
  | [y], h => by
      rcases List.mem_singleton.mp h with rfl
      exact ⟨"", "", by
        rw [joinWith, String.empty_append, String.append_empty]⟩
  | y :: z :: zs, h => by
      rcases List.mem_cons.mp h with rfl | h2
      · refine ⟨"", sep ++ joinWith sep (z :: zs), ?_⟩
        rw [joinWith, String.empty_append, String.append_assoc]
      · rcases joinWith_infix sep x (z :: zs) h2 with ⟨a, c, hac⟩
        refine ⟨y ++ sep ++ a, c, ?_⟩
        rw [joinWith, hac]
        simp only [String.append_assoc]

theorem format_block_mem_parts (rs : List SearchResult) (m : Nat) (b : Nat × SearchResult)
    (hb : b ∈ context_blocks rs m) :
    format_block b.1 b.2 ∈ context_parts rs m := by
  unfold context_parts
  refine List.mem_cons_of_mem _ (List.mem_flatten.mpr ⟨[format_block b.1 b.2, separator_line],
    ?_, by simp⟩)
  exact List.mem_map.mpr ⟨b, hb, rfl⟩

/-- C5: for a non-empty result list, the context rendered by `build_context`
contains each included result's raw `content` verbatim, as a contiguous
substring of the rendered block. -/
theorem C5_content_verbatim (rs : List SearchResult) (max_chunks : Nat)
    (r : SearchResult) (hne : rs ≠ []) (hr : r ∈ rs.take max_chunks) :
    ∃ pre post, build_context rs max_chunks = pre ++ r.content ++ post := by
  have hsnd := context_blocks_map_snd rs max_chunks
  rw [← hsnd] at hr
  rcases List.mem_map.mp hr with ⟨b, hb, hbr⟩
  have hmem := format_block_mem_parts rs max_chunks b hb
  rcases joinWith_infix "\n" (format_block b.1 b.2) (context_parts rs max_chunks) hmem
    with ⟨a, c, hac⟩
  refine ⟨a ++ block_pre b.1 b.2, block_post b.1 b.2 ++ c, ?_⟩
  have hbc : build_context rs max_chunks = joinWith "\n" (context_parts rs max_chunks) := by
    unfold build_context
    rw [if_neg (by simpa [List.isEmpty_iff] using hne)]
  rw [hbc, hac, ← hbr]
  unfold format_block
  simp only [String.append_assoc]

theorem C5_witness :
    ([res₀] : List SearchResult) ≠ [] ∧ res₀ ∈ ([res₀] : List SearchResult).take 5 ∧
    ∃ pre post, build_context [res₀] 5 = pre ++ res₀.content ++ post :=
  ⟨by decide, by decide, C5_content_verbatim [res₀] 5 res₀ (by decide) (by decide)⟩

/-- C10: when a result's metadata carries both a truthy `table_id` and a truthy
`image_path`, the extra-information line rendered into its `build_context`
block is exactly the table-id line — the image line is omitted (`table_id`
takes precedence; the two lines are mutually exclusive). -/
theorem C10_table_id_precedence (m : Metadata) (tid ip : String)
    (htid : m.table_id = some tid) (htid' : tid ≠ "")
    (hip : m.image_path = some ip) (hip' : ip ≠ "") :
    extra_info m = "\n표 ID: " ++ tid := by
  unfold extra_info
  rw [htid]
  rw [if_pos (by simpa [truthy] using htid')]
  rfl

theorem C10_witness :
    meta₁.table_id = some "T1" ∧ ("T1" : String) ≠ "" ∧
    meta₁.image_path = some "img/a.png" ∧ ("img/a.png" : String) ≠ "" ∧
    extra_info meta₁ = "\n표 ID: " ++ "T1" :=
  ⟨rfl, by decide, rfl, by decide,
    C10_table_id_precedence meta₁ "T1" "img/a.png" rfl (by decide) rfl (by decide)⟩

/-- C6 as stated is false on the code: with window `W = 2`, appending
`W + 1 = 3` turns to the initially empty message list leaves all three turns,
not the most recent two — the session message list has no eviction. -/
theorem C6_counterexample :
    append_turn (append_turn (append_turn [] turn_a) turn_b) turn_c ≠
      [turn_b, turn_c] := by decide

/-- C6 amended: the conversation history is unbounded — appending any sequence
of turns to the initially empty message list retains every appended turn in
order (no FIFO eviction window exists); the reset action empties the history
unconditionally. -/
theorem C6_amended (ts : List Turn) :
    List.foldl append_turn [] ts = ts ∧ clear_messages = ([] : List Turn) := by
  refine ⟨?_, rfl⟩
  have h : ∀ (l acc : List Turn), List.foldl append_turn acc l = acc ++ l := by
    intro l
    induction l with
    | nil => intro acc; simp [List.foldl]
    | cons x xs ih =>
      intro acc
      rw [List.foldl_cons, ih]
      simp [append_turn]
  simpa using h ts []

/-- C7 as stated is false on the code: with a failed generation call, the
shell still appends an assistant turn — carrying the failure sentinel — to the
conversation history. -/
theorem C7_counterexample :
    handle_user_input [] "질문" none [] 5 =
      [⟨Role.user, "질문", []⟩, ⟨Role.assistant, failure_sentinel, []⟩] := rfl

/-- C7 amended: when the answer-generation call fails, the answer text is
withheld — `answer_question` and `generate_response` return the fixed failure
sentinel instead — but the caller appends that sentinel to the conversation
history as an assistant turn (the history does gain a turn for the failed
answer). -/
theorem C7_amended (messages : List Turn) (q : String)
    (search_results : List SearchResult) (top_k : Nat) :
    (generate_response none search_results top_k).1 = failure_sentinel ∧
    (generate_response none search_results top_k).2 = [] ∧
    handle_user_input messages q none search_results top_k =
      messages ++ [⟨Role.user, q, []⟩, ⟨Role.assistant, failure_sentinel, []⟩] := by
  refine ⟨rfl, rfl, ?_⟩
  unfold handle_user_input append_turn generate_response
  simp

/-- C8: if the LLM call inside `rewrite_query` raises, `rewrite_query` returns
the original query unchanged, and `answer_question` continues the pipeline —
context building and answer generation run exactly as they do without
rewriting, instead of aborting with a user-visible failure. -/
theorem C8_rewrite_fallback (gen : String → String → Option String)
    (query : String) (search_results : List SearchResult) :
    rewrite_query none query = query ∧
    answer_question gen none true query search_results =
      answer_question gen none false query search_results :=
  ⟨rfl, rfl⟩

/-- C9: every table record and every image record yields exactly one chunk —
the chunk lists hold one chunk per source record, in order, with the record's
text carried over unsplit. -/
theorem C9_atomic_units (tables : List TableData) (images : List ImageData) :
    (table_chunks tables).length = tables.length ∧
    (image_chunks images).length = images.length ∧
    (table_chunks tables).map Chunk.content = tables.map TableData.rendered_text ∧
    (image_chunks images).map Chunk.content = images.map ImageData.description := by
  refine ⟨by simp [table_chunks], by simp [image_chunks], ?_, ?_⟩ <;>
    simp [table_chunks, image_chunks, make_table_to_chunk, make_image_to_chunk]

theorem rrf_fuse_perm (k : ℚ) (lists : List (List ChunkId)) :
    (rrf_fuse k lists).Perm
      ((fused_candidates lists).map (fun c => (c, rrf_score k lists c))) :=
  List.perm_insertionSort fused_before _

/-- C1: the fused score of every chunk is the sum over lists of
`1 / (k + rank_in_list)` with absent lists contributing 0 (this is the very
definition of `rrf_score`, restated as the first conjunct); each fused pair
carries exactly the `rrf_score` of its chunk id; a chunk id appears in the
fused output iff it appears in at least one input list, exactly once; the
fused output is sorted by `rrf_score` descending with ties broken by
ascending chunk id; and `hybrid_search` returns exactly the first `top_k`
elements of that sorted output. -/
theorem C1_rrf_fusion (k : ℚ) (lists : List (List ChunkId)) (top_k : Nat) :
    (∀ c : ChunkId, rrf_score k lists c =
      (lists.map (fun l => match rank_in_list l c with
        | some r => 1 / (k + (r : ℚ))
        | none => 0)).sum) ∧
    (∀ p ∈ rrf_fuse k lists, p.2 = rrf_score k lists p.1) ∧
    (∀ c : ChunkId, (∃ q, (c, q) ∈ rrf_fuse k lists) ↔ ∃ l ∈ lists, c ∈ l) ∧
    ((rrf_fuse k lists).map Prod.fst).Nodup ∧
    List.Sorted fused_before (rrf_fuse k lists) ∧
    hybrid_search k lists top_k = (rrf_fuse k lists).take top_k := by
  have hperm := rrf_fuse_perm k lists
  refine ⟨fun c => rfl, ?_, ?_, ?_, ?_, rfl⟩
  · intro p hp
    have hp' := hperm.mem_iff.mp hp
    rcases List.mem_map.mp hp' with ⟨c, _, rfl⟩
    rfl
  · intro c
    constructor
    · rintro ⟨q, hq⟩
      have hq' := hperm.mem_iff.mp hq
      rcases List.mem_map.mp hq' with ⟨c', hc', hcc⟩
      have hc : c' = c := congrArg Prod.fst hcc
      rw [hc] at hc'
      exact List.mem_flatten.mp (List.mem_dedup.mp hc')
    · intro hc
      refine ⟨rrf_score k lists c, hperm.mem_iff.mpr ?_⟩
      exact List.mem_map.mpr ⟨c, List.mem_dedup.mpr (List.mem_flatten.mpr hc), rfl⟩
  · have hfst : ((fused_candidates lists).map
        (fun c => (c, rrf_score k lists c))).map Prod.fst = fused_candidates lists := by
      rw [List.map_map]
      exact List.map_id _
    have hnd : (((fused_candidates lists).map
        (fun c => (c, rrf_score k lists c))).map Prod.fst).Nodup := by
      rw [hfst]; exact List.nodup_dedup _
    exact ((hperm.map Prod.fst).symm).nodup hnd
  · exact List.sorted_insertionSort fused_before _

/-- C2: fusion is a pure function of the rank-to-chunk mapping — for any
permutation of the collection of input rank lists, `rrf_fuse` and hence the
`hybrid_search` output are identical (and, both being functions, repeated
invocation on fixed inputs trivially gives the identical output). -/
theorem C2_fusion_order_invariance (k : ℚ) (top_k : Nat)
    (lists lists' : List (List ChunkId)) (h : lists.Perm lists') :
    hybrid_search k lists top_k = hybrid_search k lists' top_k := by
  have hscore : ∀ c : ChunkId, rrf_score k lists c = rrf_score k lists' c := by
    intro c
    exact (h.map (fun l => rrf_contrib k l c)).sum_eq
  have hcand : (fused_candidates lists).Perm (fused_candidates lists') :=
    h.flatten.dedup
  have hA : ((fused_candidates lists).map (fun c => (c, rrf_score k lists c))).Perm
      ((fused_candidates lists').map (fun c => (c, rrf_score k lists' c))) := by
    have h1 : (fused_candidates lists').map (fun c => (c, rrf_score k lists c)) =
        (fused_candidates lists').map (fun c => (c, rrf_score k lists' c)) :=
      List.map_congr_left fun c _ => by rw [hscore]
    exact h1 ▸ hcand.map _
  have hfuse : rrf_fuse k lists = rrf_fuse k lists' := by
    refine List.eq_of_perm_of_sorted
      ((rrf_fuse_perm k lists).trans (hA.trans (rrf_fuse_perm k lists').symm))
      (List.sorted_insertionSort fused_before _)
      (List.sorted_insertionSort fused_before _)
  unfold hybrid_search
  rw [hfuse]

theorem C2_witness :
    ([[1, 2], [2, 3]] : List (List ChunkId)).Perm [[2, 3], [1, 2]] ∧
    hybrid_search 60 [[1, 2], [2, 3]] 5 = hybrid_search 60 [[2, 3], [1, 2]] 5 :=
  ⟨by decide, C2_fusion_order_invariance 60 5 [[1, 2], [2, 3]] [[2, 3], [1, 2]] (by decide)⟩

end KBQA
